import Mathlib

/-!
Verification development for the InsightWave asset generator
(`generate_assets.py`).

The generator is a one-shot script: it computes gradient color stops,
sine-wave polylines, assembles SVG drawings (a logo, 13 UI icons, and an
app icon), rasterizes the app icon at a fixed table of sizes, produces a
monochrome SVG by textual rewriting, and merges icon metadata into a JSON
manifest.

This file gives a shallow embedding of those components:

* Python floats are modelled by exact rationals (`ℚ`); `math.sin` and
  `math.pi` are abstracted as parameters, since no claim depends on
  properties of the sine function or the value of pi.
* Python `int(x)` (truncation toward zero) is modelled by `pyInt`.
* Python's fallible operations (division, `in`, item assignment on
  arbitrary JSON values) are modelled in `Except String`.
* The `re.sub`/`str.replace` based monochrome rewrite is modelled by an
  executable leftmost-match scan over `List Char`, with hand-compiled
  matchers for the five concrete patterns the source uses.
* JSON documents are modelled by the inductive `JValue`; Python `dict`
  insertion-order semantics are modelled by association lists.
-/

namespace AssetGen

/-! ## Brand colors (`class BrandColors`) -/

namespace BrandColors

def PRIMARY : String := "#4A6FFF"

def SECONDARY : String := "#6E56CF"

def ACCENT : String := "#00C2FF"

def DARK : String := "#1A1D2B"

def LIGHT : String := "#F5F9FF"

def SUCCESS : String := "#2DD4BF"

def WARNING : String := "#F59E0B"

def ERROR : String := "#EF4444"

def GRADIENT_START : String := "#4A6FFF"

def GRADIENT_END : String := "#00C2FF"

end BrandColors

/-! ## Generic character-list helpers (used by the hex parser and the
monochrome rewriter) -/

/-- Value of a single hexadecimal digit, as `int(c, 16)` would compute it
for a valid digit (other characters map to 0; the source would raise
instead, but it only ever parses valid 6-digit colors). -/
def hexDigitVal (c : Char) : ℕ :=
  if '0' ≤ c ∧ c ≤ '9' then c.toNat - 48
  else if 'a' ≤ c ∧ c ≤ 'f' then c.toNat - 87
  else if 'A' ≤ c ∧ c ≤ 'F' then c.toNat - 55
  else 0

/-- If `cs` starts with the literal `pat`, return the remainder after it. -/
def dropLit : List Char → List Char → Option (List Char)
  | [], cs => some cs
  | _ :: _, [] => none
  | p :: ps, c :: cs => if c = p then dropLit ps cs else none

/-- Scan up to the first `"`; return the quote-free run and the remainder
after the quote (none if no quote occurs). -/
def spanUntilQuote : List Char → Option (List Char × List Char)
  | [] => none
  | c :: cs =>
    if c = '"' then some ([], cs)
    else (spanUntilQuote cs).map (fun pr => (c :: pr.1, pr.2))

/-- Skip up to and including the first `>`; return the remainder
(none if no `>` occurs). This is the greedy `[^>]*>` of the source's
regular expressions. -/
def spanUntilGt : List Char → Option (List Char)
  | [] => none
  | c :: cs => if c = '>' then some cs else spanUntilGt cs

/-- Find the first occurrence of the literal `pat` and return the
remainder after it (none if `pat` does not occur). This is the
non-greedy `.*?pat` of the source's regular expressions. -/
def dropThroughLit (pat : List Char) : List Char → Option (List Char)
  | [] => dropLit pat []
  | c :: cs =>
    match dropLit pat (c :: cs) with
    | some rest => some rest
    | none => dropThroughLit pat cs

/-! ## Palette: `BrandColors.get_gradient_stops` -/

/-- A color as the three channel bytes that `rgb_to_hex` formats into a
`#rrggbb` string.  The hex string is a bijective encoding of this triple
for byte values, so claims about channels are stated on the triple. -/
structure RGB where
  r : ℕ
  g : ℕ
  b : ℕ
deriving DecidableEq

/-- Python `int()` on a rational value: truncation toward zero. -/
def pyInt (q : ℚ) : ℤ := if 0 ≤ q then ⌊q⌋ else ⌈q⌉

/-- `int(hex_color[i:i+2], 16)` on a character list. -/
def hexPairVal (cs : List Char) (i : ℕ) : ℕ :=
  16 * hexDigitVal (cs.getD i '0') + hexDigitVal (cs.getD (i + 1) '0')

/-- `hex_to_rgb`: strips leading `#`, parses the three channel byte pairs
and divides by 255 (the source computes these as floats; we use exact
rationals). -/
def hex_to_rgb (hex_color : String) : ℚ × ℚ × ℚ :=
  let cs := hex_color.data.dropWhile (fun c => c = '#')
  ((hexPairVal cs 0 : ℚ) / 255, (hexPairVal cs 2 : ℚ) / 255,
    (hexPairVal cs 4 : ℚ) / 255)

/-- `rgb_to_hex`: `int(rgb[i] * 255)` for each channel, giving the three
bytes of the formatted `#rrggbb` string. -/
def rgb_to_hex (rgb : ℚ × ℚ × ℚ) : RGB :=
  ⟨(pyInt (rgb.1 * 255)).toNat, (pyInt (rgb.2.1 * 255)).toNat,
    (pyInt (rgb.2.2 * 255)).toNat⟩

/-- `t = i / (count - 1) if count > 1 else 0`. -/
def tParam (count i : ℕ) : ℚ :=
  if 1 < count then (i : ℚ) / ((count - 1 : ℕ) : ℚ) else 0

/-- `BrandColors.get_gradient_stops`: `count` interpolated colors between
`GRADIENT_START` and `GRADIENT_END`. -/
def get_gradient_stops (count : ℕ) : List RGB :=
  let start_rgb := hex_to_rgb BrandColors.GRADIENT_START
  let end_rgb := hex_to_rgb BrandColors.GRADIENT_END
  (List.range count).map fun i =>
    let t := tParam count i
    rgb_to_hex (start_rgb.1 + (end_rgb.1 - start_rgb.1) * t,
      start_rgb.2.1 + (end_rgb.2.1 - start_rgb.2.1) * t,
      start_rgb.2.2 + (end_rgb.2.2 - start_rgb.2.2) * t)

/-- Modelled from the spec's words (for comparison with the code): the
linearly interpolated channel value on the 0–255 scale, truncated toward
zero.  This is the channel the code actually produces (see
`get_gradient_stops_trunc_interp`). -/
def interpChanSpec (count i s e : ℕ) : ℕ :=
  (pyInt ((s : ℚ) + ((e : ℚ) - (s : ℚ)) * tParam count i)).toNat

/-- Modelled from the claim's words: the linearly interpolated channel
value rounded to the nearest integer (`round x = ⌊x + 1/2⌋`). -/
def roundChanSpec (count i s e : ℕ) : ℕ :=
  (round ((s : ℚ) + ((e : ℚ) - (s : ℚ)) * tParam count i)).toNat

/-- Modelled from the claim's words: what `get_gradient_stops` would
return if each channel were rounded to nearest as the claim states
(start `#4A6FFF` = (74,111,255), end `#00C2FF` = (0,194,255)). -/
def get_gradient_stops_rounded (count : ℕ) : List RGB :=
  (List.range count).map fun i =>
    ⟨roundChanSpec count i 74 0, roundChanSpec count i 111 194,
      roundChanSpec count i 255 255⟩

/-! ## Shape library: `DesignSystem.create_wave_path` -/

/-- Python true division on rationals: raises `ZeroDivisionError` when the
divisor is zero (also for `0 / 0`). -/
def pyDivQ (a b : ℚ) : Except String ℚ :=
  if b = 0 then Except.error "ZeroDivisionError: division by zero"
  else Except.ok (a / b)

/-- `DesignSystem.create_wave_path`: for `x` in `range(width + 1)`,
`y = height / 2 + (height * amplitude) * sin(x / width * 2 * pi * frequency + phase)`.
`sinF` and `piQ` abstract `math.sin` and `math.pi`; the division
`x / width` is Python division and can raise. -/
def create_wave_path (sinF : ℚ → ℚ) (piQ : ℚ) (width height : ℕ)
    (amplitude frequency phase : ℚ) : Except String (List (ℚ × ℚ)) :=
  (List.range (width + 1)).mapM fun (x : ℕ) =>
    (pyDivQ (x : ℚ) (width : ℚ)).map fun q =>
      ((x : ℚ), (height : ℚ) / 2 + ((height : ℚ) * amplitude) *
        sinF (q * 2 * piQ * frequency + phase))

/-- Modelled from the spec's words: the point the spec prescribes at
integer `x`, namely `(x, height/2 + height·amplitude·sin(2π·frequency·x/width + phase))`. -/
def wavePointSpec (sinF : ℚ → ℚ) (piQ : ℚ) (width height : ℕ)
    (amplitude frequency phase : ℚ) (x : ℕ) : ℚ × ℚ :=
  ((x : ℚ), (height : ℚ) / 2 + (height : ℚ) * amplitude *
    sinF (2 * piQ * frequency * (x : ℚ) / (width : ℚ) + phase))

/-! ## Raster exporter: size table of `generate_app_icons` -/

/-- The `icon_sizes` dictionary of `generate_app_icons`, in source order:
filename and pixel resolution of each rasterized app icon. -/
def icon_sizes : List (String × ℕ) :=
  [("app-icon-16.png", 16),
   ("app-icon-32.png", 32),
   ("app-icon-48.png", 48),
   ("app-icon-72.png", 72),
   ("app-icon-96.png", 96),
   ("app-icon-144.png", 144),
   ("app-icon-192.png", 192),
   ("app-icon-256.png", 256),
   ("app-icon-384.png", 384),
   ("app-icon-512.png", 512),
   ("apple-touch-icon.png", 180),
   ("apple-touch-icon-precomposed.png", 180),
   ("ms-tile-image.png", 144)]

/-- The three sizes packed into `favicon.ico`. -/
def favicon_sizes : List ℕ := [16, 32, 48]

/-! ## Vector composer: drawings as definition-ids plus referenced ids

For the self-containedness claim only the `url(#id)` references of the
elements and the ids registered in `defs` matter, so a drawing is
modelled by those two lists, built in source order. -/

structure Drawing where
  defIds : List String := []
  refIds : List String := []
deriving DecidableEq

/-- `DesignSystem.create_gradient_filter`: registers a linear gradient
under `id_name` in the drawing's defs. -/
def create_gradient_filter (d : Drawing) (id_name : String)
    (_start_color _end_color _direction : String) : Drawing :=
  { d with defIds := d.defIds ++ [id_name] }

/-- `DesignSystem.create_drop_shadow_filter`: registers a filter chain
under `id_name`. -/
def create_drop_shadow_filter (d : Drawing) (id_name : String) : Drawing :=
  { d with defIds := d.defIds ++ [id_name] }

/-- `DesignSystem.create_glow_filter`: registers a filter chain under
`id_name`. -/
def create_glow_filter (d : Drawing) (id_name : String)
    (_color : String) (_strength : ℚ) : Drawing :=
  { d with defIds := d.defIds ++ [id_name] }

/-- `dwg.add(element)` for an element whose attributes hold the given
`url(#id)` references. -/
def addElem (d : Drawing) (refs : List String) : Drawing :=
  { d with refIds := d.refIds ++ refs }

/-- `generate_logo_svg` (240×80 logo): gradient + glow, two waves, bulb
with eight rays, two text labels. -/
def generate_logo_svg : Drawing :=
  let d := create_gradient_filter {} "logoGradient"
    BrandColors.GRADIENT_START BrandColors.GRADIENT_END "horizontal"
  let d := create_glow_filter d "logoGlow" BrandColors.ACCENT 3
  let d := addElem d ["logoGradient", "logoGlow"]
  let d := addElem d ["logoGradient"]
  let d := addElem d (List.replicate 8 "logoGradient")
  let d := addElem d ["logoGradient"]
  addElem d []

/-- `_create_send_icon`: paper-plane polygon filled with `sendGradient`. -/
def create_send_icon : Drawing :=
  let d := create_gradient_filter {} "sendGradient"
    BrandColors.PRIMARY BrandColors.ACCENT "horizontal"
  addElem d ["sendGradient"]

/-- `_create_settings_icon`: gear polygon filled with `settingsGradient`,
plus a white center circle (no reference). -/
def create_settings_icon : Drawing :=
  let d := create_gradient_filter {} "settingsGradient"
    BrandColors.PRIMARY BrandColors.SECONDARY "horizontal"
  let d := addElem d ["settingsGradient"]
  addElem d []

/-- `_create_close_icon`: two crossed lines stroked with `closeGradient`. -/
def create_close_icon : Drawing :=
  let d := create_gradient_filter {} "closeGradient"
    BrandColors.ERROR BrandColors.SECONDARY "horizontal"
  let d := addElem d ["closeGradient"]
  addElem d ["closeGradient"]

/-- `_create_menu_icon`: three horizontal lines stroked with
`menuGradient`. -/
def create_menu_icon : Drawing :=
  let d := create_gradient_filter {} "menuGradient"
    BrandColors.PRIMARY BrandColors.ACCENT "horizontal"
  let d := addElem d ["menuGradient"]
  let d := addElem d ["menuGradient"]
  addElem d ["menuGradient"]

/-- `_create_user_icon`: head circle and body arc using `userGradient`. -/
def create_user_icon : Drawing :=
  let d := create_gradient_filter {} "userGradient"
    BrandColors.PRIMARY BrandColors.SECONDARY "horizontal"
  let d := addElem d ["userGradient"]
  addElem d ["userGradient"]

/-- `_create_assistant_icon`: face rect and antenna use
`assistantGradient`; eyes and mouth are plain white. -/
def create_assistant_icon : Drawing :=
  let d := create_gradient_filter {} "assistantGradient"
    BrandColors.ACCENT BrandColors.PRIMARY "horizontal"
  let d := addElem d ["assistantGradient"]
  let d := addElem d []
  let d := addElem d []
  let d := addElem d []
  addElem d ["assistantGradient"]

/-- `_create_attachment_icon`: paperclip path stroked with
`attachGradient`. -/
def create_attachment_icon : Drawing :=
  let d := create_gradient_filter {} "attachGradient"
    BrandColors.PRIMARY BrandColors.SECONDARY "horizontal"
  addElem d ["attachGradient"]

/-- `_create_copy_icon`: clipboard, paper and three lines all use
`copyGradient`. -/
def create_copy_icon : Drawing :=
  let d := create_gradient_filter {} "copyGradient"
    BrandColors.PRIMARY BrandColors.ACCENT "horizontal"
  let d := addElem d ["copyGradient"]
  let d := addElem d ["copyGradient"]
  let d := addElem d ["copyGradient"]
  let d := addElem d ["copyGradient"]
  addElem d ["copyGradient"]

/-- `_create_download_icon`: arrow and base line stroked with
`downloadGradient`. -/
def create_download_icon : Drawing :=
  let d := create_gradient_filter {} "downloadGradient"
    BrandColors.PRIMARY BrandColors.SUCCESS "horizontal"
  let d := addElem d ["downloadGradient"]
  addElem d ["downloadGradient"]

/-- `_create_edit_icon`: pencil outline and tip line stroked with
`editGradient`. -/
def create_edit_icon : Drawing :=
  let d := create_gradient_filter {} "editGradient"
    BrandColors.PRIMARY BrandColors.WARNING "horizontal"
  let d := addElem d ["editGradient"]
  addElem d ["editGradient"]

/-- `_create_delete_icon`: can, lid and two lines stroked with
`deleteGradient`. -/
def create_delete_icon : Drawing :=
  let d := create_gradient_filter {} "deleteGradient"
    BrandColors.ERROR BrandColors.SECONDARY "horizontal"
  let d := addElem d ["deleteGradient"]
  let d := addElem d ["deleteGradient"]
  let d := addElem d ["deleteGradient"]
  addElem d ["deleteGradient"]

/-- `_create_theme_icon`: four literal-color dots (no references) and the
palette outline stroked with `themeGradient`. -/
def create_theme_icon : Drawing :=
  let d := create_gradient_filter {} "themeGradient"
    BrandColors.PRIMARY BrandColors.SECONDARY "horizontal"
  let d := addElem d []
  let d := addElem d []
  let d := addElem d []
  let d := addElem d []
  addElem d ["themeGradient"]

/-- `_create_notification_icon`: bell, ringer and top dot all use
`notifyGradient`. -/
def create_notification_icon : Drawing :=
  let d := create_gradient_filter {} "notifyGradient"
    BrandColors.WARNING BrandColors.ACCENT "horizontal"
  let d := addElem d ["notifyGradient"]
  let d := addElem d ["notifyGradient"]
  addElem d ["notifyGradient"]

/-- `_create_app_icon_svg` (512×512): diagonal gradient + glow, eight
rays, dark background rect (literal color), one wave, bulb. -/
def create_app_icon_svg : Drawing :=
  let d := create_gradient_filter {} "iconGradient"
    BrandColors.GRADIENT_START BrandColors.GRADIENT_END "diagonal"
  let d := create_glow_filter d "iconGlow" BrandColors.ACCENT 4
  let d := addElem d (List.replicate 8 "iconGradient")
  let d := addElem d []
  let d := addElem d ["iconGradient", "iconGlow"]
  addElem d ["iconGradient", "iconGlow"]

/-- All drawings built by composer build methods: the logo, the thirteen
UI icons and the app icon. -/
def composer_drawings : List Drawing :=
  [generate_logo_svg, create_send_icon, create_settings_icon,
   create_close_icon, create_menu_icon, create_user_icon,
   create_assistant_icon, create_attachment_icon, create_copy_icon,
   create_download_icon, create_edit_icon, create_delete_icon,
   create_theme_icon, create_notification_icon, create_app_icon_svg]

/-! ## Monochrome reducer: `_create_monochrome_svg_icon`

The source rewrites the serialized SVG text with one `str.replace` and
five `re.sub` calls.  Each pattern is compiled by hand into a matcher
that, at a given position, either fails or returns the text after the
match; `rewriteWith` is the shared leftmost, non-overlapping
scan-and-replace engine (Python `str.replace` and `re.sub` both scan left
to right and continue after each replacement without rescanning it). -/

/-- One scan-and-replace pass: at each position try the matcher; on a
match emit `repl` and continue after the match, otherwise keep the
character and move on.  `fuel ≥ cs.length` suffices since every step
consumes at least one character (all matchers used here consume at least
one). -/
def rewriteAux (m : List Char → Option (List Char)) (repl : List Char) :
    ℕ → List Char → List Char
  | 0, cs => cs
  | fuel + 1, cs =>
    match cs with
    | [] => []
    | c :: cs' =>
      match m (c :: cs') with
      | some rest => repl ++ rewriteAux m repl fuel rest
      | none => c :: rewriteAux m repl fuel cs'

/-- Replace every leftmost, non-overlapping match of `m` by `repl`. -/
def rewriteWith (m : List Char → Option (List Char)) (repl : List Char)
    (cs : List Char) : List Char :=
  rewriteAux m repl cs.length cs

/-- Matcher for the literal string `pat` (the `str.replace` pattern). -/
def litMatcher (pat : String) (cs : List Char) : Option (List Char) :=
  dropLit pat.data cs

/-- Matcher for `attr="url\(#[^"]+\)"` given the literal head
`attr="url(#`: the text up to the next quote must be a nonempty name
followed by a closing parenthesis. -/
def matchUrlRef (head : String) (cs : List Char) : Option (List Char) :=
  (dropLit head.data cs).bind fun rest =>
    (spanUntilQuote rest).bind fun pr =>
      if 2 ≤ pr.1.length ∧ pr.1.getLastD ' ' = ')' then some pr.2 else none

/-- Matcher for `filter="[^"]+"`. -/
def matchFilterAttr (cs : List Char) : Option (List Char) :=
  (dropLit ("filter=\"").data cs).bind fun rest =>
    (spanUntilQuote rest).bind fun pr =>
      if 1 ≤ pr.1.length then some pr.2 else none

/-- Matcher for `<tag[^>]*>.*?</tag>` (with `re.DOTALL`, non-greedy),
given the literal opening `<tag` and closing `</tag>`. -/
def matchElement (opening closing : String) (cs : List Char) :
    Option (List Char) :=
  (dropLit opening.data cs).bind fun rest =>
    (spanUntilGt rest).bind fun rest2 =>
      dropThroughLit closing.data rest2

/-- The monochrome rewrite of `_create_monochrome_svg_icon`, in source
order: replace the dark brand color by black, flatten `fill`/`stroke`
gradient references, strip `filter` attributes, delete `linearGradient`
and `filter` definition elements. -/
def monochromeRewrite (cs : List Char) : List Char :=
  let s1 := rewriteWith (litMatcher BrandColors.DARK) ("#000000").data cs
  let s2 := rewriteWith (matchUrlRef "fill=\"url(#") ("fill=\"#000000\"").data s1
  let s3 := rewriteWith (matchUrlRef "stroke=\"url(#") ("stroke=\"#000000\"").data s2
  let s4 := rewriteWith matchFilterAttr [] s3
  let s5 := rewriteWith (matchElement "<linearGradient" "</linearGradient>") [] s4
  rewriteWith (matchElement "<filter" "</filter>") [] s5

/-- `_create_monochrome_svg_icon` as a text transformation (the source
reads the input SVG text, rewrites it, and writes it out). -/
def create_monochrome_svg_icon (svg_content : String) : String :=
  String.mk (monochromeRewrite svg_content.data)

/-- Does any position of `cs` match `m`? (`rewriteWith m repl` is the
identity exactly on match-free text.) -/
def hasMatch (m : List Char → Option (List Char)) : List Char → Bool
  | [] => false
  | c :: cs => (m (c :: cs)).isSome || hasMatch m cs

/-- A text is clean when none of the six monochrome patterns occurs in
it; on clean text the monochrome rewrite is the identity. -/
def cleanText (s : String) : Bool :=
  !(hasMatch (litMatcher BrandColors.DARK) s.data) &&
  !(hasMatch (matchUrlRef "fill=\"url(#") s.data) &&
  !(hasMatch (matchUrlRef "stroke=\"url(#") s.data) &&
  !(hasMatch matchFilterAttr s.data) &&
  !(hasMatch (matchElement "<linearGradient" "</linearGradient>") s.data) &&
  !(hasMatch (matchElement "<filter" "</filter>") s.data)

/-! ## Manifest writer: `update_manifest_json`

JSON values are modelled by `JValue`; JSON objects (Python dicts from
`json.load`) by insertion-ordered association lists.  The Python
operations `key in doc`, `doc[key] = v` are fallible on non-dict
documents and modelled in `Except String`. -/

inductive JValue where
  | null : JValue
  | bool : Bool → JValue
  | num : ℤ → JValue
  | str : String → JValue
  | arr : List JValue → JValue
  | obj : List (String × JValue) → JValue

/-- Whether a document's top-level value is a JSON object. -/
def JValue.isObj : JValue → Bool
  | .obj _ => true
  | _ => false

/-- Lookup in an association list (first binding wins, as in a dict). -/
def lookupKey : List (String × JValue) → String → Option JValue
  | [], _ => none
  | (k', v) :: rest, k => if k' = k then some v else lookupKey rest k

/-- `d[k] = v` on a dict: replace the value of an existing key in place,
otherwise append the new binding (Python dicts preserve insertion order
and append new keys at the end). -/
def dictSet : List (String × JValue) → String → JValue → List (String × JValue)
  | [], k, v => [(k, v)]
  | (k', v') :: rest, k, v =>
    if k' = k then (k', v) :: rest else (k', v') :: dictSet rest k v

/-- Python `key in list_value`: membership by `==`; a string compares
equal only to an equal string. -/
def strMem (k : String) : List JValue → Bool
  | [] => false
  | .str s :: rest => s = k || strMem k rest
  | _ :: rest => strMem k rest

/-- Python `key in string_value`: substring containment. -/
def strOccurs (pat s : String) : Bool :=
  (dropThroughLit pat.data s.data).isSome

/-- Python `key in doc` on a JSON document: key membership for objects,
element membership for arrays, substring for strings; a `TypeError` for
null/booleans/numbers. -/
def pyContains (doc : JValue) (k : String) : Except String Bool :=
  match doc with
  | .obj kvs => Except.ok (lookupKey kvs k).isSome
  | .arr xs => Except.ok (strMem k xs)
  | .str s => Except.ok (strOccurs k s)
  | _ => Except.error "TypeError: argument not iterable"

/-- Python `doc[k] = v` with a string key: works on objects, raises a
`TypeError` on every other JSON value. -/
def pySetItem (doc : JValue) (k : String) (v : JValue) : Except String JValue :=
  match doc with
  | .obj kvs => Except.ok (.obj (dictSet kvs k v))
  | _ => Except.error "TypeError: item assignment with str key"

/-- One `if k not in manifest: manifest[k] = v` step of the writer. -/
def setdefaultStep (doc : JValue) (k : String) (v : JValue) :
    Except String JValue :=
  match pyContains doc k with
  | Except.error e => Except.error e
  | Except.ok b => if b then Except.ok doc else pySetItem doc k v

/-- One entry of the fixed `icons` list: `{src, sizes, type}`. -/
def iconEntry (src sizes : String) : JValue :=
  .obj [("src", .str src), ("sizes", .str sizes), ("type", .str "image/png")]

/-- The fixed eight-entry `icons` value of `update_manifest_json`, in
source order. -/
def iconsJson : JValue :=
  .arr [iconEntry "assets/images/app-icon-48.png" "48x48",
        iconEntry "assets/images/app-icon-72.png" "72x72",
        iconEntry "assets/images/app-icon-96.png" "96x96",
        iconEntry "assets/images/app-icon-144.png" "144x144",
        iconEntry "assets/images/app-icon-192.png" "192x192",
        iconEntry "assets/images/app-icon-256.png" "256x256",
        iconEntry "assets/images/app-icon-384.png" "384x384",
        iconEntry "assets/images/app-icon-512.png" "512x512"]

/-- The body of `update_manifest_json` on the loaded document: seven
conditional metadata defaults, then the unconditional `icons`
replacement. -/
def update_manifest_json (doc : JValue) : Except String JValue :=
  (setdefaultStep doc "name" (.str "InsightWave")).bind fun m =>
  (setdefaultStep m "short_name" (.str "InsightWave")).bind fun m =>
  (setdefaultStep m "description"
    (.str "Conversations that elevate your thinking")).bind fun m =>
  (setdefaultStep m "theme_color" (.str BrandColors.PRIMARY)).bind fun m =>
  (setdefaultStep m "background_color" (.str BrandColors.DARK)).bind fun m =>
  (setdefaultStep m "display" (.str "standalone")).bind fun m =>
  (setdefaultStep m "start_url" (.str "/")).bind fun m =>
  pySetItem m "icons" iconsJson

/-- The state of `manifest.json` on disk before the writer runs. -/
inductive ManifestFile where
  | missing : ManifestFile
  | unparsable : ManifestFile
  | parsed : JValue → ManifestFile

/-- The load step of `update_manifest_json`: a missing file or a file the
JSON parser rejects yields the empty document; a parsed file yields its
value unchanged (whatever its top-level type). -/
def load_manifest : ManifestFile → JValue
  | .missing => .obj []
  | .unparsable => .obj []
  | .parsed v => v

/-- The eight keys the writer touches. -/
def reservedKeys : List String :=
  ["name", "short_name", "description", "theme_color",
   "background_color", "display", "start_url", "icons"]

/-- The seven metadata keys that are set only if absent. -/
def metadataFields : List String :=
  ["name", "short_name", "description", "theme_color",
   "background_color", "display", "start_url"]

/-- The object-document behavior of one `setdefaultStep`: keep the dict
if the key is present, otherwise append the default. -/
def objSetdefault (m : List (String × JValue)) (k : String) (v : JValue) :
    List (String × JValue) :=
  if (lookupKey m k).isSome then m else dictSet m k v

/-- The object-document behavior of the whole writer body. -/
def updateObj (m : List (String × JValue)) : List (String × JValue) :=
  dictSet
    (objSetdefault
      (objSetdefault
        (objSetdefault
          (objSetdefault
            (objSetdefault
              (objSetdefault
                (objSetdefault m "name" (.str "InsightWave"))
                "short_name" (.str "InsightWave"))
              "description" (.str "Conversations that elevate your thinking"))
            "theme_color" (.str BrandColors.PRIMARY))
          "background_color" (.str BrandColors.DARK))
        "display" (.str "standalone"))
      "start_url" (.str "/"))
    "icons" iconsJson

/-! ## Helper lemmas -/

theorem except_ok_bind {α β : Type} (a : α) (f : α → Except String β) :
    (Except.ok a : Except String α).bind f = f a := rfl

theorem except_error_bind {α β : Type} (e : String) (f : α → Except String β) :
    (Except.error e : Except String α).bind f = Except.error e := rfl

theorem mapM_ok {α β : Type} (f : α → Except String β) (g : α → β) :
    ∀ l : List α, (∀ x ∈ l, f x = Except.ok (g x)) →
      l.mapM f = Except.ok (l.map g) := by
  intro l
  induction l with
  | nil => intro _; rfl
  | cons a l ih =>
    intro h
    rw [List.mapM_cons, h a (List.mem_cons_self a l),
      ih (fun x hx => h x (List.mem_cons_of_mem a hx))]
    rfl

/-! ## Claim theorems -/

/-- C2 (counterexample): the thirteen rasterized app-icon files do not
have pairwise distinct resolutions: 180 appears twice (apple-touch-icon
and its -precomposed variant) and 144 appears twice (app-icon-144 and
ms-tile-image). -/
theorem icon_sizes_not_distinct :
    icon_sizes.length = 13 ∧
    icon_sizes.map Prod.snd =
      [16, 32, 48, 72, 96, 144, 192, 256, 384, 512, 180, 180, 144] ∧
    ¬ (icon_sizes.map Prod.snd).Nodup := by decide

/-- C2 (amended): the app-icon rasterization step produces thirteen
square output files with pairwise distinct filenames; their resolutions
cover exactly the eleven values 16, 32, 48, 72, 96, 144, 180, 192, 256,
384, 512 (16 up to 512 plus the platform-specific 144 and 180 variants),
with 144 and 180 each produced twice. -/
theorem icon_sizes_files :
    icon_sizes.length = 13 ∧
    (icon_sizes.map Prod.fst).Nodup ∧
    (icon_sizes.map Prod.snd).toFinset =
      ({16, 32, 48, 72, 96, 144, 180, 192, 256, 384, 512} : Finset ℕ) ∧
    (icon_sizes.map Prod.snd).count 144 = 2 ∧
    (icon_sizes.map Prod.snd).count 180 = 2 := by decide

/-- C7: every drawing produced by a composer build method is
self-contained: each `url(#id)` reference carried by one of its elements
has a matching gradient or filter definition registered in the same
drawing's defs. -/
theorem drawings_self_contained :
    ∀ d ∈ composer_drawings, ∀ r ∈ d.refIds, r ∈ d.defIds := by decide

theorem drawings_self_contained_witness :
    "logoGradient" ∈ generate_logo_svg.defIds :=
  drawings_self_contained generate_logo_svg (by decide) "logoGradient" (by decide)

/-- C9: calling `create_wave_path` with `width = 0` raises
`ZeroDivisionError` (Python raises even for `0 / 0`) instead of returning
the single point for `x = 0`. -/
theorem create_wave_path_width_zero (sinF : ℚ → ℚ) (piQ : ℚ) (height : ℕ)
    (amplitude frequency phase : ℚ) :
    create_wave_path sinF piQ 0 height amplitude frequency phase =
      Except.error "ZeroDivisionError: division by zero" := by
  unfold create_wave_path
  have h1 : List.range (0 + 1) = [0] := rfl
  rw [h1, List.mapM_cons]
  simp only [pyDivQ, Nat.cast_zero, if_pos, Except.map]
  rfl

/-- C6: for `width ≥ 1`, `create_wave_path` succeeds with exactly
`width + 1` points, and the point at each integer `x ≤ width` is
`(x, height/2 + height·amplitude·sin(2π·frequency·x/width + phase))`;
with amplitude 0 every point has `y = height/2` regardless of the sine
function. -/
theorem create_wave_path_spec (sinF : ℚ → ℚ) (piQ : ℚ) (width height : ℕ)
    (amplitude frequency phase : ℚ) (hw : 1 ≤ width) (x : ℕ) (hx : x ≤ width) :
    ∃ pts, create_wave_path sinF piQ width height amplitude frequency phase =
        Except.ok pts ∧
      pts.length = width + 1 ∧
      pts[x]? = some (wavePointSpec sinF piQ width height amplitude frequency phase x) ∧
      (amplitude = 0 → pts[x]? = some ((x : ℚ), (height : ℚ) / 2)) := by
  have hw0 : ((width : ℚ)) ≠ 0 := by
    have : (0 : ℚ) < width := by exact_mod_cast Nat.pos_of_ne_zero (by omega)
    exact this.ne'
  refine ⟨(List.range (width + 1)).map (fun (n : ℕ) =>
    ((n : ℚ), (height : ℚ) / 2 + ((height : ℚ) * amplitude) *
      sinF ((n : ℚ) / (width : ℚ) * 2 * piQ * frequency + phase))), ?_, ?_, ?_, ?_⟩
  · apply mapM_ok
    intro n _
    unfold pyDivQ
    rw [if_neg hw0]
    rfl
  · simp
  · rw [List.getElem?_map, List.getElem?_range (by omega), Option.map_some']
    unfold wavePointSpec
    rw [show (x : ℚ) / (width : ℚ) * 2 * piQ * frequency + phase =
        2 * piQ * frequency * (x : ℚ) / (width : ℚ) + phase from by ring]
  · intro ha
    rw [List.getElem?_map, List.getElem?_range (by omega)]
    simp [ha]

theorem create_wave_path_spec_witness :
    ∃ pts, create_wave_path (fun q => q) 3 2 4 0 1 0 = Except.ok pts ∧
      pts.length = 2 + 1 ∧
      pts[1]? = some (wavePointSpec (fun q => q) 3 2 4 0 1 0 1) ∧
      ((0 : ℚ) = 0 → pts[1]? = some (((1 : ℕ) : ℚ), ((4 : ℕ) : ℚ) / 2)) :=
  create_wave_path_spec (fun q => q) 3 2 4 0 1 0 (by decide) 1 (by decide)

theorem hex_to_rgb_start :
    hex_to_rgb BrandColors.GRADIENT_START =
      ((74 : ℚ) / 255, (111 : ℚ) / 255, (255 : ℚ) / 255) := by
  have h0 : hexPairVal
      ((BrandColors.GRADIENT_START).data.dropWhile (fun c => c = '#')) 0 = 74 := by decide
  have h2 : hexPairVal
      ((BrandColors.GRADIENT_START).data.dropWhile (fun c => c = '#')) 2 = 111 := by decide
  have h4 : hexPairVal
      ((BrandColors.GRADIENT_START).data.dropWhile (fun c => c = '#')) 4 = 255 := by decide
  simp only [hex_to_rgb]
  rw [h0, h2, h4]
  norm_num

theorem hex_to_rgb_end :
    hex_to_rgb BrandColors.GRADIENT_END =
      ((0 : ℚ) / 255, (194 : ℚ) / 255, (255 : ℚ) / 255) := by
  have h0 : hexPairVal
      ((BrandColors.GRADIENT_END).data.dropWhile (fun c => c = '#')) 0 = 0 := by decide
  have h2 : hexPairVal
      ((BrandColors.GRADIENT_END).data.dropWhile (fun c => c = '#')) 2 = 194 := by decide
  have h4 : hexPairVal
      ((BrandColors.GRADIENT_END).data.dropWhile (fun c => c = '#')) 4 = 255 := by decide
  simp only [hex_to_rgb]
  rw [h0, h2, h4]
  norm_num

theorem chan_floor (x : ℚ) (n : ℕ) (h1 : (n : ℚ) ≤ x * 255)
    (h2 : x * 255 < n + 1) : (pyInt (x * 255)).toNat = n := by
  have h0 : 0 ≤ x * 255 := le_trans (by positivity) h1
  unfold pyInt
  rw [if_pos h0]
  have hf : ⌊x * 255⌋ = (n : ℤ) :=
    Int.floor_eq_iff.2 ⟨by exact_mod_cast h1, by push_cast; exact_mod_cast h2⟩
  rw [hf]
  exact Int.toNat_natCast n

theorem rgb_to_hex_floor (a b c : ℚ) (n1 n2 n3 : ℕ)
    (ha1 : (n1 : ℚ) ≤ a * 255) (ha2 : a * 255 < n1 + 1)
    (hb1 : (n2 : ℚ) ≤ b * 255) (hb2 : b * 255 < n2 + 1)
    (hc1 : (n3 : ℚ) ≤ c * 255) (hc2 : c * 255 < n3 + 1) :
    rgb_to_hex (a, b, c) = ⟨n1, n2, n3⟩ := by
  unfold rgb_to_hex
  dsimp only
  rw [chan_floor a n1 ha1 ha2, chan_floor b n2 hb1 hb2, chan_floor c n3 hc1 hc2]

theorem tParam_zero (count : ℕ) : tParam count 0 = 0 := by
  unfold tParam
  split <;> simp

theorem tParam_nonneg (count i : ℕ) : 0 ≤ tParam count i := by
  unfold tParam
  split
  · positivity
  · exact le_refl 0

theorem tParam_le_one (count i : ℕ) (hi : i < count) : tParam count i ≤ 1 := by
  unfold tParam
  split
  · rename_i h
    rw [div_le_one (by exact_mod_cast Nat.pos_of_ne_zero (by omega))]
    exact_mod_cast (by omega : i ≤ count - 1)
  · norm_num

theorem tParam_last (count : ℕ) (h : 2 ≤ count) : tParam count (count - 1) = 1 := by
  unfold tParam
  rw [if_pos (by omega)]
  exact div_self (by exact_mod_cast Nat.pos_of_ne_zero (by omega) : (0 : ℚ) < ((count - 1 : ℕ) : ℚ)).ne'

theorem get_gradient_stops_elem (count i : ℕ) (hi : i < count) :
    (get_gradient_stops count)[i]? = some (rgb_to_hex
      ((74 : ℚ) / 255 + ((0 : ℚ) / 255 - (74 : ℚ) / 255) * tParam count i,
       (111 : ℚ) / 255 + ((194 : ℚ) / 255 - (111 : ℚ) / 255) * tParam count i,
       (255 : ℚ) / 255 + ((255 : ℚ) / 255 - (255 : ℚ) / 255) * tParam count i)) := by
  simp only [get_gradient_stops, hex_to_rgb_start, hex_to_rgb_end]
  rw [List.getElem?_map, List.getElem?_range hi, Option.map_some']

/-- C5: `get_gradient_stops N` returns `N` colors; for `N ≥ 2` stop 0 is
exactly the start color `(74,111,255)` and stop `N-1` is exactly the end
color `(0,194,255)` (exact equality, hence within ±1 per channel); and
`get_gradient_stops 1 = [start]`. -/
theorem get_gradient_stops_endpoints (N : ℕ) (hN : 1 ≤ N) :
    (get_gradient_stops N).length = N ∧
    (get_gradient_stops N)[0]? = some ⟨74, 111, 255⟩ ∧
    (2 ≤ N → (get_gradient_stops N)[N - 1]? = some ⟨0, 194, 255⟩) ∧
    (N = 1 → get_gradient_stops N = [⟨74, 111, 255⟩]) := by
  refine ⟨?_, ?_, ?_, ?_⟩
  · simp [get_gradient_stops]
  · rw [get_gradient_stops_elem N 0 (by omega), tParam_zero]
    rw [rgb_to_hex_floor _ _ _ 74 111 255 (by norm_num) (by norm_num)
      (by norm_num) (by norm_num) (by norm_num) (by norm_num)]
  · intro h2
    rw [get_gradient_stops_elem N (N - 1) (by omega), tParam_last N h2]
    rw [rgb_to_hex_floor _ _ _ 0 194 255 (by norm_num) (by norm_num)
      (by norm_num) (by norm_num) (by norm_num) (by norm_num)]
  · intro h1
    subst h1
    have hr : List.range 1 = [0] := rfl
    simp only [get_gradient_stops, hex_to_rgb_start, hex_to_rgb_end, hr,
      List.map_cons, List.map_nil, tParam_zero]
    rw [rgb_to_hex_floor _ _ _ 74 111 255 (by norm_num) (by norm_num)
      (by norm_num) (by norm_num) (by norm_num) (by norm_num)]

theorem get_gradient_stops_endpoints_witness :
    (get_gradient_stops 3).length = 3 ∧
    (get_gradient_stops 3)[0]? = some ⟨74, 111, 255⟩ ∧
    (2 ≤ 3 → (get_gradient_stops 3)[3 - 1]? = some ⟨0, 194, 255⟩) ∧
    (3 = 1 → get_gradient_stops 3 = [⟨74, 111, 255⟩]) :=
  get_gradient_stops_endpoints 3 (by decide)

/-- C1 (counterexample): the channels are not rounded to nearest: at
`count = 4`, stop 1 the code yields green channel `⌊138.67⌋ = 138`
(truncation) while rounding to nearest yields 139, so the gradient the
code returns differs from the rounded-channel gradient the claim
describes. -/
theorem get_gradient_stops_not_rounded :
    (get_gradient_stops 4)[1]? = some ⟨49, 138, 255⟩ ∧
    (get_gradient_stops_rounded 4)[1]? = some ⟨49, 139, 255⟩ ∧
    get_gradient_stops 4 ≠ get_gradient_stops_rounded 4 := by
  have ht : tParam 4 1 = 1 / 3 := by
    unfold tParam
    rw [if_pos (by norm_num)]
    norm_num
  have h1 : (get_gradient_stops 4)[1]? = some ⟨49, 138, 255⟩ := by
    rw [get_gradient_stops_elem 4 1 (by norm_num), ht]
    rw [rgb_to_hex_floor _ _ _ 49 138 255 (by norm_num) (by norm_num)
      (by norm_num) (by norm_num) (by norm_num) (by norm_num)]
  have h2 : (get_gradient_stops_rounded 4)[1]? = some ⟨49, 139, 255⟩ := by
    unfold get_gradient_stops_rounded
    rw [List.getElem?_map, List.getElem?_range (by norm_num : 1 < 4),
      Option.map_some']
    unfold roundChanSpec
    rw [ht]
    rw [show round (((74 : ℕ) : ℚ) + (((0 : ℕ) : ℚ) - ((74 : ℕ) : ℚ)) * (1 / 3)) = 49 by
      rw [round_eq]; norm_num [Int.floor_eq_iff]]
    rw [show round (((111 : ℕ) : ℚ) + (((194 : ℕ) : ℚ) - ((111 : ℕ) : ℚ)) * (1 / 3)) = 139 by
      rw [round_eq]; norm_num [Int.floor_eq_iff]]
    rw [show round (((255 : ℕ) : ℚ) + (((255 : ℕ) : ℚ) - ((255 : ℕ) : ℚ)) * (1 / 3)) = 255 by
      rw [round_eq]; norm_num [Int.floor_eq_iff]]
    rfl
  refine ⟨h1, h2, fun heq => ?_⟩
  have h3 := congrArg (fun (l : List RGB) => l[1]?) heq
  dsimp only at h3
  rw [h1, h2] at h3
  simp only [Option.some.injEq, RGB.mk.injEq] at h3
  omega

theorem pyInt_le_of_le (q : ℚ) (n : ℕ) (h : q ≤ n) : pyInt q ≤ n := by
  unfold pyInt
  split
  · exact le_trans (Int.floor_le_floor h) (by simp)
  · exact Int.ceil_le.2 (by exact_mod_cast h)

theorem interpChanSpec_le (count i s e : ℕ) (hs : s ≤ 255) (he : e ≤ 255)
    (hi : i < count) : interpChanSpec count i s e ≤ 255 := by
  unfold interpChanSpec
  have h0 := tParam_nonneg count i
  have h1 := tParam_le_one count i hi
  have hs' : (s : ℚ) ≤ 255 := by exact_mod_cast hs
  have he' : (e : ℚ) ≤ 255 := by exact_mod_cast he
  have hq : (s : ℚ) + ((e : ℚ) - (s : ℚ)) * tParam count i ≤ 255 := by nlinarith
  exact Int.toNat_le.2 (pyInt_le_of_le _ 255 hq)

/-- C1 (amended): each color returned by `get_gradient_stops count` has
each RGB channel computed by truncating (flooring) the linearly
interpolated channel value — `int()` in the source truncates rather than
rounding to nearest — and each channel stays in 0–255 (`interpChanSpec`
is the interpolation `s + (e - s) · t` on the 0–255 scale followed by
truncation; its result is a natural number, hence ≥ 0). -/
theorem get_gradient_stops_trunc_interp (count : ℕ) (hc : 1 ≤ count)
    (i : ℕ) (hi : i < count) :
    (get_gradient_stops count)[i]? =
      some ⟨interpChanSpec count i 74 0, interpChanSpec count i 111 194,
        interpChanSpec count i 255 255⟩ ∧
    interpChanSpec count i 74 0 ≤ 255 ∧
    interpChanSpec count i 111 194 ≤ 255 ∧
    interpChanSpec count i 255 255 ≤ 255 := by
  refine ⟨?_, interpChanSpec_le count i 74 0 (by norm_num) (by norm_num) hi,
    interpChanSpec_le count i 111 194 (by norm_num) (by norm_num) hi,
    interpChanSpec_le count i 255 255 (by norm_num) (by norm_num) hi⟩
  rw [get_gradient_stops_elem count i hi]
  unfold rgb_to_hex interpChanSpec
  dsimp only
  rw [show ((74 : ℚ) / 255 + ((0 : ℚ) / 255 - (74 : ℚ) / 255) * tParam count i) * 255
      = ((74 : ℕ) : ℚ) + (((0 : ℕ) : ℚ) - ((74 : ℕ) : ℚ)) * tParam count i from by
    push_cast; ring]
  rw [show ((111 : ℚ) / 255 + ((194 : ℚ) / 255 - (111 : ℚ) / 255) * tParam count i) * 255
      = ((111 : ℕ) : ℚ) + (((194 : ℕ) : ℚ) - ((111 : ℕ) : ℚ)) * tParam count i from by
    push_cast; ring]
  rw [show ((255 : ℚ) / 255 + ((255 : ℚ) / 255 - (255 : ℚ) / 255) * tParam count i) * 255
      = ((255 : ℕ) : ℚ) + (((255 : ℕ) : ℚ) - ((255 : ℕ) : ℚ)) * tParam count i from by
    push_cast; ring]

theorem get_gradient_stops_trunc_interp_witness :
    (get_gradient_stops 2)[1]? =
      some ⟨interpChanSpec 2 1 74 0, interpChanSpec 2 1 111 194,
        interpChanSpec 2 1 255 255⟩ ∧
    interpChanSpec 2 1 74 0 ≤ 255 ∧
    interpChanSpec 2 1 111 194 ≤ 255 ∧
    interpChanSpec 2 1 255 255 ≤ 255 :=
  get_gradient_stops_trunc_interp 2 (by decide) 1 (by decide)

theorem lookupKey_dictSet_self (m : List (String × JValue)) (k : String)
    (v : JValue) : lookupKey (dictSet m k v) k = some v := by
  induction m with
  | nil => simp [dictSet, lookupKey]
  | cons kv rest ih =>
    obtain ⟨k', v'⟩ := kv
    by_cases h : k' = k
    · subst h
      simp [dictSet, lookupKey]
    · simp [dictSet, lookupKey, h, ih]

theorem lookupKey_dictSet_ne (m : List (String × JValue)) (k k' : String)
    (v : JValue) (h : k ≠ k') :
    lookupKey (dictSet m k v) k' = lookupKey m k' := by
  induction m with
  | nil => simp [dictSet, lookupKey, h]
  | cons kv rest ih =>
    obtain ⟨k'', v''⟩ := kv
    by_cases h2 : k'' = k
    · subst h2
      simp [dictSet, lookupKey, h]
    · simp [dictSet, lookupKey, h2, ih]

theorem lookupKey_objSetdefault_pres (m : List (String × JValue))
    (k : String) (v : JValue) (f : String) (w : JValue)
    (h : lookupKey m f = some w) :
    lookupKey (objSetdefault m k v) f = some w := by
  unfold objSetdefault
  by_cases hs : (lookupKey m k).isSome
  · rw [if_pos hs]
    exact h
  · rw [if_neg hs]
    have hne : k ≠ f := by
      rintro rfl
      rw [h] at hs
      simp at hs
    rw [lookupKey_dictSet_ne m k f v hne]
    exact h

theorem lookupKey_objSetdefault_ne (m : List (String × JValue))
    (k : String) (v : JValue) (f : String) (h : k ≠ f) :
    lookupKey (objSetdefault m k v) f = lookupKey m f := by
  unfold objSetdefault
  by_cases hs : (lookupKey m k).isSome
  · rw [if_pos hs]
  · rw [if_neg hs, lookupKey_dictSet_ne m k f v h]

theorem setdefaultStep_obj (m : List (String × JValue)) (k : String)
    (v : JValue) :
    setdefaultStep (.obj m) k v = Except.ok (.obj (objSetdefault m k v)) := by
  unfold setdefaultStep pyContains pySetItem objSetdefault
  by_cases hs : (lookupKey m k).isSome
  · rw [if_pos hs]
    simp [hs]
  · rw [if_neg hs]
    simp [hs]

theorem update_manifest_json_obj (m : List (String × JValue)) :
    update_manifest_json (.obj m) = Except.ok (.obj (updateObj m)) := by
  unfold update_manifest_json updateObj
  rw [setdefaultStep_obj, except_ok_bind, setdefaultStep_obj, except_ok_bind,
    setdefaultStep_obj, except_ok_bind, setdefaultStep_obj, except_ok_bind,
    setdefaultStep_obj, except_ok_bind, setdefaultStep_obj, except_ok_bind,
    setdefaultStep_obj, except_ok_bind]
  rfl

/-- C3: for a pre-existing manifest object with a custom (non-reserved)
field and no `icons` key, after the writer runs the custom field is
unchanged, every one of the seven metadata fields that was already
present is unchanged, and `icons` equals exactly the fixed eight-entry
list in its fixed order. -/
theorem update_manifest_preserves_custom (m : List (String × JValue))
    (hicons : lookupKey m "icons" = none) (k : String) (v : JValue)
    (hk : k ∉ reservedKeys) (hkv : lookupKey m k = some v) :
    ∃ m', update_manifest_json (.obj m) = Except.ok (.obj m') ∧
      lookupKey m' k = some v ∧
      (∀ f w, f ∈ metadataFields → lookupKey m f = some w →
        lookupKey m' f = some w) ∧
      lookupKey m' "icons" = some iconsJson := by
  refine ⟨updateObj m, update_manifest_json_obj m, ?_, ?_, ?_⟩
  · have h1 : ("name" : String) ≠ k := by
      rintro rfl; exact hk (by decide)
    have h2 : ("short_name" : String) ≠ k := by
      rintro rfl; exact hk (by decide)
    have h3 : ("description" : String) ≠ k := by
      rintro rfl; exact hk (by decide)
    have h4 : ("theme_color" : String) ≠ k := by
      rintro rfl; exact hk (by decide)
    have h5 : ("background_color" : String) ≠ k := by
      rintro rfl; exact hk (by decide)
    have h6 : ("display" : String) ≠ k := by
      rintro rfl; exact hk (by decide)
    have h7 : ("start_url" : String) ≠ k := by
      rintro rfl; exact hk (by decide)
    have h8 : ("icons" : String) ≠ k := by
      rintro rfl; exact hk (by decide)
    unfold updateObj
    rw [lookupKey_dictSet_ne _ _ _ _ h8,
      lookupKey_objSetdefault_ne _ _ _ _ h7,
      lookupKey_objSetdefault_ne _ _ _ _ h6,
      lookupKey_objSetdefault_ne _ _ _ _ h5,
      lookupKey_objSetdefault_ne _ _ _ _ h4,
      lookupKey_objSetdefault_ne _ _ _ _ h3,
      lookupKey_objSetdefault_ne _ _ _ _ h2,
      lookupKey_objSetdefault_ne _ _ _ _ h1]
    exact hkv
  · intro f w hf hfw
    have hfi : ("icons" : String) ≠ f := by
      simp only [metadataFields, List.mem_cons, List.not_mem_nil, or_false] at hf
      rcases hf with rfl | rfl | rfl | rfl | rfl | rfl | rfl <;> decide
    unfold updateObj
    rw [lookupKey_dictSet_ne _ _ _ _ hfi]
    exact lookupKey_objSetdefault_pres _ _ _ _ _
      (lookupKey_objSetdefault_pres _ _ _ _ _
        (lookupKey_objSetdefault_pres _ _ _ _ _
          (lookupKey_objSetdefault_pres _ _ _ _ _
            (lookupKey_objSetdefault_pres _ _ _ _ _
              (lookupKey_objSetdefault_pres _ _ _ _ _
                (lookupKey_objSetdefault_pres _ _ _ _ _ hfw))))))
  · unfold updateObj
    exact lookupKey_dictSet_self _ _ _

theorem update_manifest_preserves_custom_witness :
    lookupKey [("custom", JValue.str "keep"), ("name", JValue.str "MyApp")]
      "icons" = none ∧
    "custom" ∉ reservedKeys ∧
    lookupKey [("custom", JValue.str "keep"), ("name", JValue.str "MyApp")]
      "custom" = some (JValue.str "keep") ∧
    (∃ m', update_manifest_json
        (.obj [("custom", JValue.str "keep"), ("name", JValue.str "MyApp")]) =
        Except.ok (.obj m') ∧
      lookupKey m' "custom" = some (JValue.str "keep") ∧
      (∀ f w, f ∈ metadataFields →
        lookupKey [("custom", JValue.str "keep"), ("name", JValue.str "MyApp")]
          f = some w → lookupKey m' f = some w) ∧
      lookupKey m' "icons" = some iconsJson) :=
  ⟨rfl, by decide, rfl,
    update_manifest_preserves_custom
      [("custom", JValue.str "keep"), ("name", JValue.str "MyApp")] rfl
      "custom" (JValue.str "keep") (by decide) rfl⟩

/-- C8: when the manifest file is missing or fails to parse, the writer
starts from the empty document and produces a document in which all
seven metadata fields carry their defaults and `icons` is the fixed
eight-entry list. -/
theorem update_manifest_empty_defaults :
    ∃ m', update_manifest_json (load_manifest .missing) = Except.ok (.obj m') ∧
      update_manifest_json (load_manifest .unparsable) = Except.ok (.obj m') ∧
      lookupKey m' "name" = some (.str "InsightWave") ∧
      lookupKey m' "short_name" = some (.str "InsightWave") ∧
      lookupKey m' "description" =
        some (.str "Conversations that elevate your thinking") ∧
      lookupKey m' "theme_color" = some (.str "#4A6FFF") ∧
      lookupKey m' "background_color" = some (.str "#1A1D2B") ∧
      lookupKey m' "display" = some (.str "standalone") ∧
      lookupKey m' "start_url" = some (.str "/") ∧
      lookupKey m' "icons" = some iconsJson := by
  refine ⟨updateObj [], ?_, ?_, ?_, ?_, ?_, ?_, ?_, ?_, ?_, ?_⟩ <;> rfl

theorem setdefaultStep_arr (xs : List JValue) (k : String) (w : JValue) :
    setdefaultStep (.arr xs) k w = Except.ok (.arr xs) ∨
    setdefaultStep (.arr xs) k w =
      Except.error "TypeError: item assignment with str key" := by
  unfold setdefaultStep pyContains pySetItem
  by_cases hb : strMem k xs
  · left
    simp [hb]
  · right
    simp [hb]

theorem setdefaultStep_nonobj (v : JValue) (h : v.isObj = false)
    (k : String) (w : JValue) :
    setdefaultStep v k w = Except.ok v ∨
    ∃ e, setdefaultStep v k w = Except.error e := by
  cases v with
  | obj kvs => simp [JValue.isObj] at h
  | arr xs =>
    rcases setdefaultStep_arr xs k w with hh | hh
    · exact Or.inl hh
    · exact Or.inr ⟨_, hh⟩
  | str s =>
    unfold setdefaultStep pyContains pySetItem
    by_cases hb : strOccurs k s
    · left
      simp [hb]
    · right
      refine ⟨"TypeError: item assignment with str key", ?_⟩
      simp [hb]
  | null => exact Or.inr ⟨_, rfl⟩
  | bool b => exact Or.inr ⟨_, rfl⟩
  | num n => exact Or.inr ⟨_, rfl⟩

theorem bind_after_arr (xs : List JValue) (k : String) (w : JValue)
    (rest : JValue → Except String JValue)
    (hrest : rest (.arr xs) =
      Except.error "TypeError: item assignment with str key") :
    (setdefaultStep (.arr xs) k w).bind rest =
      Except.error "TypeError: item assignment with str key" := by
  rcases setdefaultStep_arr xs k w with hh | hh
  · rw [hh, except_ok_bind]
    exact hrest
  · rw [hh]
    rfl

theorem bind_after_nonobj (v : JValue) (h : v.isObj = false) (k : String)
    (w : JValue) (rest : JValue → Except String JValue)
    (hrest : ∃ e, rest v = Except.error e) :
    ∃ e, (setdefaultStep v k w).bind rest = Except.error e := by
  rcases setdefaultStep_nonobj v h k w with hh | ⟨e, hh⟩
  · rw [hh, except_ok_bind]
    exact hrest
  · exact ⟨e, by rw [hh]; rfl⟩

/-- C10: a pre-existing manifest whose top-level JSON value is not an
object is not treated as malformed: the load step passes the parsed
value through unchanged (only a missing or unparsable file is replaced
by the empty document), and the writer body then fails with an uncaught
`TypeError`; for a JSON array specifically the failure is the item
assignment of a metadata field or of `icons`. -/
theorem update_manifest_nonobject_fails (v : JValue) (h : v.isObj = false) :
    (∃ e, update_manifest_json (load_manifest (.parsed v)) = Except.error e) ∧
    (∀ xs, v = .arr xs → update_manifest_json (load_manifest (.parsed v)) =
      Except.error "TypeError: item assignment with str key") := by
  constructor
  · show ∃ e, update_manifest_json v = Except.error e
    unfold update_manifest_json
    apply bind_after_nonobj v h
    dsimp only
    apply bind_after_nonobj v h
    dsimp only
    apply bind_after_nonobj v h
    dsimp only
    apply bind_after_nonobj v h
    dsimp only
    apply bind_after_nonobj v h
    dsimp only
    apply bind_after_nonobj v h
    dsimp only
    apply bind_after_nonobj v h
    dsimp only
    cases v with
    | obj kvs => simp [JValue.isObj] at h
    | arr xs => exact ⟨_, rfl⟩
    | str s => exact ⟨_, rfl⟩
    | null => exact ⟨_, rfl⟩
    | bool b => exact ⟨_, rfl⟩
    | num n => exact ⟨_, rfl⟩
  · rintro xs rfl
    show update_manifest_json (.arr xs) = _
    unfold update_manifest_json
    apply bind_after_arr
    dsimp only
    apply bind_after_arr
    dsimp only
    apply bind_after_arr
    dsimp only
    apply bind_after_arr
    dsimp only
    apply bind_after_arr
    dsimp only
    apply bind_after_arr
    dsimp only
    apply bind_after_arr
    dsimp only
    rfl

theorem update_manifest_nonobject_fails_witness :
    JValue.isObj (.arr []) = false ∧
    ((∃ e, update_manifest_json (load_manifest (.parsed (.arr []))) =
        Except.error e) ∧
      (∀ xs, JValue.arr [] = .arr xs →
        update_manifest_json (load_manifest (.parsed (.arr []))) =
          Except.error "TypeError: item assignment with str key")) :=
  ⟨rfl, update_manifest_nonobject_fails (.arr []) rfl⟩

theorem rewriteAux_eq_self (m : List Char → Option (List Char))
    (repl : List Char) :
    ∀ (fuel : ℕ) (cs : List Char), hasMatch m cs = false →
      rewriteAux m repl fuel cs = cs := by
  intro fuel
  induction fuel with
  | zero => intro cs _; rfl
  | succ n ih =>
    intro cs hcs
    cases cs with
    | nil => rfl
    | cons c cs' =>
      have h1 : m (c :: cs') = none := by
        cases hm : m (c :: cs') with
        | none => rfl
        | some r => simp [hasMatch, hm] at hcs
      have h2 : hasMatch m cs' = false := by
        simp [hasMatch, h1] at hcs
        exact hcs
      simp only [rewriteAux, h1]
      rw [ih cs' h2]

theorem rewriteWith_eq_self (m : List Char → Option (List Char))
    (repl cs : List Char) (h : hasMatch m cs = false) :
    rewriteWith m repl cs = cs :=
  rewriteAux_eq_self m repl cs.length cs h

set_option maxHeartbeats 2000000 in
/-- C4 (counterexample): the monochrome rewrite is not idempotent on all
texts: in `#1A1<filter a>x</filter>D2B` the first pass deletes the
`<filter>` element, and that deletion joins the surrounding fragments
into the dark brand color `#1A1D2B`, which only the second pass replaces
by `#000000`. -/
theorem monochrome_not_idempotent :
    create_monochrome_svg_icon "#1A1<filter a>x</filter>D2B" = "#1A1D2B" ∧
    create_monochrome_svg_icon (create_monochrome_svg_icon
      "#1A1<filter a>x</filter>D2B") = "#000000" ∧
    create_monochrome_svg_icon (create_monochrome_svg_icon
      "#1A1<filter a>x</filter>D2B") ≠
      create_monochrome_svg_icon "#1A1<filter a>x</filter>D2B" := by
  refine ⟨?_, ?_, ?_⟩ <;> decide

/-- C4 (amended): the monochrome rewrite is idempotent on every input
whose one-pass output is free of all six rewritten patterns (the dark
color literal, `fill`/`stroke` url references, `filter` attributes, and
`linearGradient`/`filter` elements); in general a deletion can join
surrounding text into a fresh pattern occurrence, so a second pass may
differ. -/
theorem monochrome_idempotent_on_clean (s : String)
    (h : cleanText (create_monochrome_svg_icon s) = true) :
    create_monochrome_svg_icon (create_monochrome_svg_icon s) =
      create_monochrome_svg_icon s := by
  simp only [cleanText, Bool.and_eq_true, Bool.not_eq_true'] at h
  obtain ⟨⟨⟨⟨⟨h1, h2⟩, h3⟩, h4⟩, h5⟩, h6⟩ := h
  have key : monochromeRewrite (create_monochrome_svg_icon s).data =
      (create_monochrome_svg_icon s).data := by
    simp only [monochromeRewrite]
    rw [rewriteWith_eq_self _ _ _ h1, rewriteWith_eq_self _ _ _ h2,
      rewriteWith_eq_self _ _ _ h3, rewriteWith_eq_self _ _ _ h4,
      rewriteWith_eq_self _ _ _ h5, rewriteWith_eq_self _ _ _ h6]
  have eta : ∀ t : String, String.mk t.data = t := fun t => rfl
  show String.mk (monochromeRewrite (create_monochrome_svg_icon s).data) =
    create_monochrome_svg_icon s
  rw [key, eta]

theorem monochrome_idempotent_on_clean_witness :
    cleanText (create_monochrome_svg_icon "<svg fill=\"url(#g)\"/>") = true ∧
    create_monochrome_svg_icon (create_monochrome_svg_icon
      "<svg fill=\"url(#g)\"/>") =
      create_monochrome_svg_icon "<svg fill=\"url(#g)\"/>" :=
  ⟨by decide,
    monochrome_idempotent_on_clean "<svg fill=\"url(#g)\"/>" (by decide)⟩
